import Mathlib

/-!
Shallow embedding of the SimpleAndLightweightERP backend (Express + better-sqlite3
+ bcrypt + jsonwebtoken): the authorization middleware
(src/backend/src/middleware/authorize.js), the JWT authentication gate
(the authenticateToken middleware), the auth routes
(src/backend/src/routes/auth.js), the users CRUD routes
(src/backend/src/routes/users.js) and the database schema
(the database module under src/unnamed).

The persisted store is modelled as a list of rows.  The handlers and the
repository's own tests read and write an `is_admin` column; the CREATE TABLE
in the database module omits that column, a discrepancy recorded by the C9
theorem below.  Everywhere else the relation is modelled with the column the
handlers address.  External primitives (bcrypt.hash, bcrypt.compare,
jwt.sign, jwt.verify, uuidv4, CURRENT_TIMESTAMP) are passed in as function
or value parameters.
-/

/-- JavaScript values as they appear in destructured JSON request bodies.
A field absent from the body destructures to `undefined`. -/
inductive JSVal
  | vStr (s : String)
  | vNum (n : Int)
  | vBool (b : Bool)
  | vNull
  | vUndefined
  deriving DecidableEq, Repr

/-- JavaScript truthiness, as used by `if (!username || !password || !email)`.
The empty string, 0, false, null and undefined are falsy. -/
def truthy : JSVal → Bool
  | .vStr s => s ≠ ""
  | .vNum n => n ≠ 0
  | .vBool b => b
  | .vNull => false
  | .vUndefined => false

/-- The property access `v.length`: a number for strings, `undefined` for
numbers and booleans.  (Handlers only apply it to truthy values, so the
null/undefined TypeError case never arises.) -/
def jsLength : JSVal → JSVal
  | .vStr s => .vNum s.length
  | _ => .vUndefined

/-- The comparison `v < k` as used in `password.length < 8`: numeric when `v`
is a number; `undefined < 8` evaluates to `NaN < 8`, which is `false`. -/
def jsLtNum : JSVal → Int → Bool
  | .vNum a, b => a < b
  | _, _ => false

/-- Whether a value is a string (bcrypt.hash and bcrypt.compare throw for
any other data). -/
def JSVal.isStr : JSVal → Bool
  | .vStr _ => true
  | _ => false

/-- Values better-sqlite3 binds as statement parameters: strings, numbers
and null.  Binding a boolean or undefined makes `stmt.run` throw a
TypeError, which the handlers' catch blocks turn into a 500. -/
def bindable : JSVal → Bool
  | .vStr _ => true
  | .vNum _ => true
  | .vNull => true
  | _ => false

/-- A row of the `users` relation as the handlers address it:
id TEXT PRIMARY KEY, username, password_hash TEXT, email TEXT UNIQUE,
is_admin (0/1, modelled as Bool), created_at DATETIME. -/
structure Row where
  id : String
  username : JSVal
  password_hash : String
  email : JSVal
  is_admin : Bool
  created_at : String
  deriving DecidableEq, Repr

/-- A JSON object, as an association list of fields in insertion order. -/
abbrev Obj := List (String × JSVal)

/-- Whether an object has a field named `k`. -/
def hasKey (o : Obj) (k : String) : Bool :=
  o.any (fun p => p.1 == k)

/-- The rest-destructuring `{ k, ...rest }`: the object without field `k`. -/
def omitKey (o : Obj) (k : String) : Obj :=
  o.filter (fun p => p.1 != k)

/-- A row as `SELECT *` returns it, in column order. -/
def rowToObj (r : Row) : Obj :=
  [("id", .vStr r.id), ("username", r.username),
   ("password_hash", .vStr r.password_hash), ("email", r.email),
   ("is_admin", .vBool r.is_admin), ("created_at", .vStr r.created_at)]

/-- Response bodies of the handlers (the `details` field of error bodies is
elided; the `error` message is kept verbatim). -/
inductive Body
  | empty
  | err (msg : String)
  | user (o : Obj)
  | userList (l : List Obj)
  | authOk (message : String) (token : String) (o : Obj)
  deriving DecidableEq, Repr

/-- An HTTP response: status code and body. -/
structure HResp where
  status : Nat
  body : Body
  deriving DecidableEq, Repr

/-- The `req.user` context attached by authenticateToken:
`SELECT id, username, email, is_admin FROM users WHERE id = ?`. -/
structure CtxUser where
  id : String
  username : JSVal
  email : JSVal
  is_admin : Bool
  deriving DecidableEq, Repr

/-- Outcome of an authorization middleware: call `next()` or halt with a
status and error body. -/
inductive Gate
  | pass
  | halt (status : Nat) (msg : String)
  deriving DecidableEq, Repr

/-- The requireAdmin middleware of authorize.js. -/
def requireAdmin : Option CtxUser → Gate
  | none => .halt 401 "Autenticação necessária"
  | some u => if !u.is_admin then .halt 403 "Acesso negado. Apenas administradores." else .pass

/-- The requireAdminOrOwner middleware of authorize.js: compares
`req.user.id` with `req.params.id`. -/
def requireAdminOrOwner : Option CtxUser → String → Gate
  | none, _ => .halt 401 "Autenticação necessária"
  | some u, pid =>
    let isOwner : Bool := u.id == pid
    let isAdmin : Bool := u.is_admin
    if !isAdmin && !isOwner then .halt 403 "Acesso negado" else .pass

/-- Outcome of `jwt.verify(token, secret)`: the decoded `userId` claim, a
JsonWebTokenError (bad signature), a TokenExpiredError, or any other error. -/
inductive VerifyOutcome
  | ok (userId : String)
  | badSignature
  | expired
  | otherError
  deriving DecidableEq, Repr

/-- `chars` split at every space, keeping empty pieces, exactly like the
JavaScript `header.split(' ')`. -/
def splitOnSpace : List Char → List (List Char)
  | [] => [[]]
  | c :: rest =>
    let r := splitOnSpace rest
    if c = ' ' then [] :: r
    else
      match r with
      | [] => [[c]]
      | h :: t => (c :: h) :: t

/-- `authHeader && authHeader.split(' ')[1]` followed by the `if (!token)`
falsiness check: the second space-separated field of the header, when it is
present and non-empty.  The scheme word before the space is never inspected. -/
def extractBearer (authHeader : Option String) : Option String :=
  match authHeader with
  | none => none
  | some h =>
    match (splitOnSpace h.toList).get? 1 with
    | none => none
    | some t => if t.isEmpty then none else some (String.mk t)

/-- Outcome of the authentication gate: `req.user` attached, or a terminal
error response. -/
inductive AuthResult
  | ok (user : CtxUser)
  | reject (status : Nat) (msg : String)
  deriving DecidableEq, Repr

/-- The authenticateToken middleware: extract the bearer token, verify it,
then re-resolve the subject id against the users table. -/
def authenticateToken (st : List Row) (authHeader : Option String)
    (verify : String → VerifyOutcome) : AuthResult :=
  match extractBearer authHeader with
  | none => .reject 401 "Token não fornecido"
  | some tok =>
    match verify tok with
    | .ok uid =>
      match st.find? (fun r => r.id == uid) with
      | none => .reject 401 "Usuário não encontrado"
      | some r => .ok ⟨r.id, r.username, r.email, r.is_admin⟩
    | .badSignature => .reject 403 "Token inválido"
    | .expired => .reject 403 "Token expirado"
    | .otherError => .reject 500 "Erro ao verificar token"

/-- The claims object passed to `jwt.sign`. -/
structure TokenClaims where
  userId : String
  username : JSVal
  email : JSVal
  is_admin : Bool
  deriving DecidableEq, Repr

/-- The shared validation prefix of POST /auth/register and POST /users:
required fields present (truthy), then `password.length < 8`. -/
def registerValidate (username password email : JSVal) : Option String :=
  if !(truthy username && truthy password && truthy email) then
    some "Campos obrigatórios faltando"
  else if jsLtNum (jsLength password) 8 then
    some "Senha muito fraca"
  else
    none

/-- POST /auth/register: validate, hash the password, insert with
is_admin = 0, sign a token and return it with the literal user projection.
A duplicate email surfaces as a SQLITE_CONSTRAINT error translated to 400;
a non-string password makes bcrypt.hash throw, giving the catch-all 500. -/
def register (st : List Row) (username password email : JSVal)
    (hash : String → String) (sign : TokenClaims → String)
    (newId now : String) : HResp × List Row :=
  match registerValidate username password email with
  | some m => (⟨400, .err m⟩, st)
  | none =>
    match password with
    | .vStr ps =>
      if !(bindable username && bindable email) then
        (⟨500, .err "Erro ao registrar usuário"⟩, st)
      else if st.any (fun r => decide (r.email = email)) then
        (⟨400, .err "Email já está em uso"⟩, st)
      else
        let row : Row := ⟨newId, username, hash ps, email, false, now⟩
        (⟨201, .authOk "Usuário criado com sucesso"
            (sign ⟨newId, username, email, false⟩)
            [("id", .vStr newId), ("username", username), ("email", email),
             ("is_admin", .vBool false)]⟩,
         st ++ [row])
    | _ => (⟨500, .err "Erro ao registrar usuário"⟩, st)

/-- POST /users (admin create): same validation, INSERT without the is_admin
column (the column default, false), then re-select the inserted row and
return it without password_hash. -/
def createUser (st : List Row) (username password email : JSVal)
    (hash : String → String) (newId now : String) : HResp × List Row :=
  match registerValidate username password email with
  | some m => (⟨400, .err m⟩, st)
  | none =>
    match password with
    | .vStr ps =>
      if !(bindable username && bindable email) then
        (⟨500, .err "Erro ao criar usuário"⟩, st)
      else if st.any (fun r => decide (r.email = email)) then
        (⟨400, .err "Email já está em uso"⟩, st)
      else
        let row : Row := ⟨newId, username, hash ps, email, false, now⟩
        (⟨201, .user (omitKey (rowToObj row) "password_hash")⟩, st ++ [row])
    | _ => (⟨500, .err "Erro ao criar usuário"⟩, st)

/-- POST /auth/login: look up by email, compare the password with the stored
hash, and answer the same generic 401 body whether the email was unknown or
the password wrong. -/
def login (st : List Row) (email password : JSVal)
    (compare : String → String → Bool) (sign : TokenClaims → String) : HResp :=
  if !(truthy email && truthy password) then
    ⟨400, .err "Campos obrigatórios faltando"⟩
  else if !(bindable email) then
    ⟨500, .err "Erro ao fazer login"⟩
  else
    match st.find? (fun r => decide (r.email = email)) with
    | none => ⟨401, .err "Credenciais inválidas"⟩
    | some u =>
      match password with
      | .vStr ps =>
        if !(compare ps u.password_hash) then
          ⟨401, .err "Credenciais inválidas"⟩
        else
          ⟨200, .authOk "Login realizado com sucesso"
            (sign ⟨u.id, u.username, u.email, u.is_admin⟩)
            [("id", .vStr u.id), ("username", u.username), ("email", u.email),
             ("is_admin", .vBool u.is_admin)]⟩
      | _ => ⟨500, .err "Erro ao fazer login"⟩

/-- GET /users: all rows, each with password_hash stripped. -/
def listUsers (st : List Row) : HResp :=
  ⟨200, .userList (st.map (fun r => omitKey (rowToObj r) "password_hash"))⟩

/-- GET /users/:id: the row with that id, password_hash stripped, else 404. -/
def getUser (st : List Row) (pid : String) : HResp :=
  match st.find? (fun r => r.id == pid) with
  | none => ⟨404, .err "Usuário não encontrado"⟩
  | some u => ⟨200, .user (omitKey (rowToObj u) "password_hash")⟩

/-- One row under the dynamically built `UPDATE users SET ...`: each staged
field replaces the row's value, every other column keeps its value.  `ph` is
the bcrypt hash staged when a password was supplied. -/
def applyUpd (username password email : JSVal) (ph : String) (o : Row) : Row :=
  { o with
    username := if username ≠ JSVal.vUndefined then username else o.username,
    password_hash := if password ≠ JSVal.vUndefined then ph else o.password_hash,
    email := if email ≠ JSVal.vUndefined then email else o.email }

/-- PUT /users/:id: 404 when the id is absent; bcrypt.hash throws on a
non-string supplied password (500); 400 when no updatable field was
supplied; binding a boolean throws (500); a NOT NULL or UNIQUE violation is
a SQLITE_CONSTRAINT translated to the duplicate-email 400; otherwise the
single row keyed by id is updated and returned without password_hash (the
re-select by the primary key returns exactly the updated row). -/
def updateUser (st : List Row) (pid : String) (username password email : JSVal)
    (hash : String → String) : HResp × List Row :=
  match st.find? (fun r => r.id == pid) with
  | none => (⟨404, .err "Usuário não encontrado"⟩, st)
  | some existing =>
    if password ≠ JSVal.vUndefined ∧ ¬ password.isStr then
      (⟨500, .err "Erro ao atualizar usuário"⟩, st)
    else if username = JSVal.vUndefined ∧ password = JSVal.vUndefined
        ∧ email = JSVal.vUndefined then
      (⟨400, .err "Nenhum campo para atualizar"⟩, st)
    else if (username ≠ JSVal.vUndefined ∧ ¬ bindable username)
        ∨ (email ≠ JSVal.vUndefined ∧ ¬ bindable email) then
      (⟨500, .err "Erro ao atualizar usuário"⟩, st)
    else if username = JSVal.vNull ∨ email = JSVal.vNull
        ∨ (email ≠ JSVal.vUndefined
            ∧ st.any (fun o => o.id != pid && decide (o.email = email))) then
      (⟨400, .err "Email já está em uso"⟩, st)
    else
      let ph := match password with | .vStr s => hash s | _ => ""
      let updated := applyUpd username password email ph existing
      (⟨200, .user (omitKey (rowToObj updated) "password_hash")⟩,
       st.map (fun o => if o.id == pid then applyUpd username password email ph o else o))

/-- DELETE /users/:id: 404 when absent, else physical removal and 204. -/
def deleteUser (st : List Row) (pid : String) : HResp × List Row :=
  match st.find? (fun r => r.id == pid) with
  | none => (⟨404, .err "Usuário não encontrado"⟩, st)
  | some _ => (⟨204, .empty⟩, st.filter (fun r => r.id != pid))

/-- The column list of the `users` table as the database module's
initializeDatabase creates it: `id TEXT PRIMARY KEY, username TEXT NOT NULL,
password_hash TEXT NOT NULL, email TEXT UNIQUE NOT NULL, created_at DATETIME
DEFAULT CURRENT_TIMESTAMP`. -/
def usersTableColumns : List String :=
  ["id", "username", "password_hash", "email", "created_at"]

/-- The columns carrying a UNIQUE constraint in that CREATE TABLE. -/
def usersUniqueColumns : List String := ["email"]

/-- The column list named by the INSERT of POST /auth/register. -/
def registerInsertColumns : List String :=
  ["id", "username", "password_hash", "email", "is_admin"]

/-- The column list named by the INSERT of POST /users. -/
def createInsertColumns : List String :=
  ["id", "username", "password_hash", "email"]

/-! Helper lemmas shared by several results. -/

theorem hasKey_omitKey (o : Obj) (k : String) :
    hasKey (omitKey o k) k = false := by
  simp [hasKey, omitKey, List.any_eq_false, List.mem_filter]

theorem registerValidate_some_of_bad (u p e : JSVal)
    (hbad : u = JSVal.vUndefined ∨ p = JSVal.vUndefined ∨ e = JSVal.vUndefined
      ∨ ∃ s, p = JSVal.vStr s ∧ s.length < 8) :
    ∃ m, registerValidate u p e = some m := by
  rcases hbad with h | h | h | ⟨s, rfl, hlen⟩
  · subst h; simp [registerValidate, truthy]
  · subst h; simp [registerValidate, truthy]
  · subst h; simp [registerValidate, truthy]
  · by_cases hs : s = ""
    · subst hs; simp [registerValidate, truthy]
    · have h8 : ((s.length : Int) < 8) := by exact_mod_cast hlen
      have hps : truthy (JSVal.vStr s) = true := by simp [truthy, hs]
      by_cases hu : truthy u <;> by_cases he : truthy e <;>
        simp [registerValidate, hu, he, hps, jsLength, jsLtNum, h8]

theorem registerValidate_ok (u p : String) (e : JSVal) (hu : u ≠ "")
    (hp : 8 ≤ p.length) (he : truthy e = true) :
    registerValidate (JSVal.vStr u) (JSVal.vStr p) e = none := by
  have hus : truthy (JSVal.vStr u) = true := by simp [truthy, hu]
  have hps : truthy (JSVal.vStr p) = true := by
    simp [truthy]
    intro h
    subst h
    simp at hp
  have h8 : jsLtNum (jsLength (JSVal.vStr p)) 8 = false := by
    simp [jsLength, jsLtNum]
    omega
  simp [registerValidate, hus, hps, he, h8]

/-- C1: with an authenticated user in the context, requireAdmin passes iff the
caller's is_admin flag is set and otherwise halts with 403 Forbidden;
requireAdminOrOwner passes iff the caller is admin or the caller's id equals
the :id route parameter and otherwise halts with 403; with no user attached,
both halt with 401 without passing control onward. -/
theorem c1_authorization_predicates (u : CtxUser) (pid : String) :
    requireAdmin (some u)
      = (if u.is_admin then Gate.pass
         else Gate.halt 403 "Acesso negado. Apenas administradores.")
    ∧ requireAdminOrOwner (some u) pid
      = (if u.is_admin ∨ u.id = pid then Gate.pass else Gate.halt 403 "Acesso negado")
    ∧ requireAdmin none = Gate.halt 401 "Autenticação necessária"
    ∧ requireAdminOrOwner none pid = Gate.halt 401 "Autenticação necessária" := by
  refine ⟨?_, ?_, rfl, rfl⟩
  · by_cases h : u.is_admin <;> simp [requireAdmin, h]
  · by_cases h : u.is_admin <;> by_cases h2 : u.id = pid <;>
      simp [requireAdminOrOwner, h, h2]

/-- Whether a response body exposes no password_hash field: user objects, and
every element of user arrays, lack that key. -/
def bodyNoPH : Body → Bool
  | .user o => !(hasKey o "password_hash")
  | .userList l => l.all (fun o => !(hasKey o "password_hash"))
  | .authOk _ _ o => !(hasKey o "password_hash")
  | _ => true

/-- C2: every response of register, login, list, get-by-id, admin create and
update — in particular every successful one — carries user objects without a
password_hash field. -/
theorem c2_no_password_hash (st : List Row) (u p e em pw : JSVal)
    (hash : String → String) (sign : TokenClaims → String)
    (compare : String → String → Bool) (newId now pid : String) :
    bodyNoPH (register st u p e hash sign newId now).1.body = true
    ∧ bodyNoPH (login st em pw compare sign).body = true
    ∧ bodyNoPH (listUsers st).body = true
    ∧ bodyNoPH (getUser st pid).body = true
    ∧ bodyNoPH (createUser st u p e hash newId now).1.body = true
    ∧ bodyNoPH (updateUser st pid u p e hash).1.body = true := by
  refine ⟨?_, ?_, ?_, ?_, ?_, ?_⟩
  · unfold register
    split
    · rfl
    · split <;> try rfl
      split <;> try rfl
      split <;> simp [bodyNoPH, hasKey]
  · unfold login
    split
    · rfl
    · split
      · rfl
      · split
        · rfl
        · split
          · split
            · rfl
            · simp [bodyNoPH, hasKey]
          · rfl
  · show (st.map fun r => omitKey (rowToObj r) "password_hash").all
        (fun o => !(hasKey o "password_hash")) = true
    simp [List.all_eq_true, hasKey_omitKey]
  · unfold getUser
    split
    · rfl
    · simp [bodyNoPH, hasKey_omitKey]
  · unfold createUser
    split
    · rfl
    · split <;> try rfl
      split <;> try rfl
      split
      · rfl
      · simp [bodyNoPH, hasKey_omitKey]
  · unfold updateUser
    split
    · rfl
    · split
      · rfl
      · split
        · rfl
        · split
          · rfl
          · split
            · rfl
            · simp [bodyNoPH, hasKey_omitKey]

/-- C3: the authentication gate maps a missing token to 401, a bad signature
to 403, an expired token to 403, and a verified token whose subject id is no
longer in the store — a user deleted after issuance — to 401; in the last
case the request is rejected, never served with an attached user. -/
theorem c3_authentication_status_mapping (st : List Row) (h : Option String)
    (verify : String → VerifyOutcome) :
    (extractBearer h = none →
      authenticateToken st h verify = .reject 401 "Token não fornecido")
    ∧ (∀ tok, extractBearer h = some tok →
        (verify tok = .badSignature →
          authenticateToken st h verify = .reject 403 "Token inválido")
        ∧ (verify tok = .expired →
            authenticateToken st h verify = .reject 403 "Token expirado")
        ∧ (∀ uid, verify tok = .ok uid →
            st.find? (fun r => r.id == uid) = none →
            authenticateToken st h verify = .reject 401 "Usuário não encontrado"
            ∧ ∀ u, authenticateToken st h verify ≠ .ok u)) := by
  constructor
  · intro hn
    simp [authenticateToken, hn]
  · intro tok htok
    refine ⟨?_, ?_, ?_⟩
    · intro hv; simp [authenticateToken, htok, hv]
    · intro hv; simp [authenticateToken, htok, hv]
    · intro uid hv hf
      simp [authenticateToken, htok, hv, hf]

/-- C4: a PUT /users/:id on an existing user can change only username,
password_hash (the staged hash of a supplied plaintext password) and email:
the id, is_admin and created_at projections of the whole table are unchanged
by every update; supplying only a username leaves email and password_hash
unchanged; and a body with none of the three accepted fields fails with the
400 validation error leaving the store entirely unchanged. -/
theorem c4_update_frame (st : List Row) (pid : String) (u p e : JSVal)
    (hash : String → String) :
    ((updateUser st pid u p e hash).2).map (fun o => (o.id, o.is_admin, o.created_at))
      = st.map (fun o => (o.id, o.is_admin, o.created_at))
    ∧ (∀ r, st.find? (fun o => o.id == pid) = some r →
        (∀ s, u = JSVal.vStr s → p = JSVal.vUndefined → e = JSVal.vUndefined →
          updateUser st pid u p e hash
            = (⟨200, .user (omitKey (rowToObj { r with username := JSVal.vStr s })
                  "password_hash")⟩,
               st.map (fun o =>
                 if o.id == pid then { o with username := JSVal.vStr s } else o)))
        ∧ (u = JSVal.vUndefined → p = JSVal.vUndefined → e = JSVal.vUndefined →
            updateUser st pid u p e hash
              = (⟨400, .err "Nenhum campo para atualizar"⟩, st))
        ∧ (∀ a b c, u = JSVal.vStr a → p = JSVal.vStr b → e = JSVal.vStr c →
            (st.any fun o => o.id != pid && decide (o.email = JSVal.vStr c)) = false →
            updateUser st pid u p e hash
              = (⟨200, .user (omitKey (rowToObj
                    { r with username := JSVal.vStr a, password_hash := hash b,
                             email := JSVal.vStr c }) "password_hash")⟩,
                 st.map (fun o =>
                   if o.id == pid then
                     { o with username := JSVal.vStr a, password_hash := hash b,
                              email := JSVal.vStr c }
                   else o)))) := by
  constructor
  · unfold updateUser
    split
    · rfl
    · split
      · rfl
      · split
        · rfl
        · split
          · rfl
          · split
            · rfl
            · rw [List.map_map]
              apply List.map_congr_left
              intro o _
              by_cases h : o.id = pid <;> simp [h, applyUpd]
  · intro r hr
    refine ⟨?_, ?_, ?_⟩
    · intro s hu hp he
      subst hu; subst hp; subst he
      unfold updateUser
      rw [hr]
      simp [JSVal.isStr, bindable, applyUpd]
    · intro hu hp he
      subst hu; subst hp; subst he
      unfold updateUser
      rw [hr]
      simp [JSVal.isStr]
    · intro a b c hu hp he hfree
      subst hu; subst hp; subst he
      unfold updateUser
      rw [hr]
      simp [JSVal.isStr, bindable, hfree, applyUpd]

/-- C5: a login whose email matches no stored row and a login whose email
matches but whose password fails verification produce the identical
response — status 401 with the same generic invalid-credentials body — so
the reply does not reveal whether the email exists. -/
theorem c5_login_indistinguishable (st : List Row) (e1 p1 e2 p2 : JSVal)
    (compare : String → String → Bool) (sign : TokenClaims → String) :
    (truthy e1 = true → truthy p1 = true → bindable e1 = true →
      st.find? (fun r => decide (r.email = e1)) = none →
      login st e1 p1 compare sign = ⟨401, .err "Credenciais inválidas"⟩)
    ∧ (∀ r s, truthy e2 = true → bindable e2 = true →
        st.find? (fun r2 => decide (r2.email = e2)) = some r →
        p2 = JSVal.vStr s → s ≠ "" → compare s r.password_hash = false →
        login st e2 p2 compare sign = ⟨401, .err "Credenciais inválidas"⟩) := by
  constructor
  · intro he hp hb hf
    simp [login, he, hp, hb, hf]
  · intro r s he hb hf hp hs hc
    subst hp
    have hps : truthy (JSVal.vStr s) = true := by simp [truthy, hs]
    simp [login, he, hps, hb, hf, hc]

/-- C6: a register or admin-create request with username, password or email
missing, or with a password shorter than 8 characters, fails with a 400
validation error and inserts nothing — the store is unchanged. -/
theorem c6_validation_failure_inserts_nothing (st : List Row) (u p e : JSVal)
    (hash : String → String) (sign : TokenClaims → String) (newId now : String)
    (hbad : u = JSVal.vUndefined ∨ p = JSVal.vUndefined ∨ e = JSVal.vUndefined
      ∨ ∃ s, p = JSVal.vStr s ∧ s.length < 8) :
    (register st u p e hash sign newId now).1.status = 400
    ∧ ((register st u p e hash sign newId now).1.body
        = .err "Campos obrigatórios faltando"
      ∨ (register st u p e hash sign newId now).1.body = .err "Senha muito fraca")
    ∧ (register st u p e hash sign newId now).2 = st
    ∧ (createUser st u p e hash newId now).1.status = 400
    ∧ (createUser st u p e hash newId now).2 = st := by
  obtain ⟨m, hm⟩ := registerValidate_some_of_bad u p e hbad
  have hmem : m = "Campos obrigatórios faltando" ∨ m = "Senha muito fraca" := by
    unfold registerValidate at hm
    split at hm
    · simp at hm; left; exact hm.symm
    · split at hm
      · simp at hm; right; exact hm.symm
      · simp at hm
  refine ⟨?_, ?_, ?_, ?_, ?_⟩ <;> simp [register, createUser, hm]
  rcases hmem with h | h <;> simp [h]

/-- Witness for C6 at a concrete input: registering with no username and the
valid password pw123456 is rejected with 400 and the empty store stays empty. -/
theorem c6_witness :
    (register [] JSVal.vUndefined (JSVal.vStr "pw123456") (JSVal.vStr "a@x.com")
        (fun s => s) (fun _ => "tok") "id1" "t0").1.status = 400
    ∧ ((register [] JSVal.vUndefined (JSVal.vStr "pw123456") (JSVal.vStr "a@x.com")
        (fun s => s) (fun _ => "tok") "id1" "t0").1.body
        = .err "Campos obrigatórios faltando"
      ∨ (register [] JSVal.vUndefined (JSVal.vStr "pw123456") (JSVal.vStr "a@x.com")
        (fun s => s) (fun _ => "tok") "id1" "t0").1.body = .err "Senha muito fraca")
    ∧ (register [] JSVal.vUndefined (JSVal.vStr "pw123456") (JSVal.vStr "a@x.com")
        (fun s => s) (fun _ => "tok") "id1" "t0").2 = []
    ∧ (createUser [] JSVal.vUndefined (JSVal.vStr "pw123456") (JSVal.vStr "a@x.com")
        (fun s => s) "id1" "t0").1.status = 400
    ∧ (createUser [] JSVal.vUndefined (JSVal.vStr "pw123456") (JSVal.vStr "a@x.com")
        (fun s => s) "id1" "t0").2 = [] :=
  c6_validation_failure_inserts_nothing [] JSVal.vUndefined (JSVal.vStr "pw123456")
    (JSVal.vStr "a@x.com") (fun s => s) (fun _ => "tok") "id1" "t0" (Or.inl rfl)

/-- C7: registering again with the email of a live row is rejected with the
translated 400 duplicate-email error and the store — the first row included —
is unchanged; after deleting that row, registering (or admin-creating) a user
with the same email succeeds with 201, because uniqueness is enforced only
among currently-live rows. -/
theorem c7_email_uniqueness_scoped_to_live_rows (st : List Row) (r : Row)
    (u p : String) (hash : String → String) (sign : TokenClaims → String)
    (newId now : String) :
    (r ∈ st → u ≠ "" → 8 ≤ p.length → truthy r.email = true → bindable r.email = true →
      register st (JSVal.vStr u) (JSVal.vStr p) r.email hash sign newId now
        = (⟨400, .err "Email já está em uso"⟩, st))
    ∧ (r ∈ st → (∀ o ∈ st, o.email = r.email → o.id = r.id) →
        u ≠ "" → 8 ≤ p.length → truthy r.email = true → bindable r.email = true →
        (deleteUser st r.id).1 = ⟨204, .empty⟩
        ∧ (deleteUser st r.id).2 = st.filter (fun o => o.id != r.id)
        ∧ (register (st.filter (fun o => o.id != r.id)) (JSVal.vStr u) (JSVal.vStr p)
             r.email hash sign newId now).1.status = 201
        ∧ (register (st.filter (fun o => o.id != r.id)) (JSVal.vStr u) (JSVal.vStr p)
             r.email hash sign newId now).2
          = st.filter (fun o => o.id != r.id)
            ++ [⟨newId, JSVal.vStr u, hash p, r.email, false, now⟩]
        ∧ (createUser (st.filter (fun o => o.id != r.id)) (JSVal.vStr u) (JSVal.vStr p)
             r.email hash newId now).1.status = 201) := by
  have hbu : bindable (JSVal.vStr u) = true := rfl
  constructor
  · intro hr hu hp he hb
    have hdup : (st.any fun o => decide (o.email = r.email)) = true := by
      simp [List.any_eq_true]
      exact ⟨r, hr, rfl⟩
    simp [register, registerValidate_ok u p r.email hu hp he, hbu, hb, hdup]
  · intro hr huniq hu hp he hb
    have hfree : ((st.filter (fun o => o.id != r.id)).any
        fun o => decide (o.email = r.email)) = false := by
      simp [List.any_eq_false, List.mem_filter]
      intro o ho hne hemail
      exact hne (huniq o ho hemail)
    have hdel : st.find? (fun o => o.id == r.id) ≠ none := by
      intro hnone
      rw [List.find?_eq_none] at hnone
      exact hnone r hr (by simp)
    refine ⟨?_, ?_, ?_, ?_, ?_⟩
    · rcases hf : st.find? (fun o => o.id == r.id) with _ | x
      · exact absurd hf hdel
      · simp [deleteUser, hf]
    · rcases hf : st.find? (fun o => o.id == r.id) with _ | x
      · exact absurd hf hdel
      · simp [deleteUser, hf]
    · simp [register, registerValidate_ok u p r.email hu hp he, hbu, hb, hfree]
    · simp [register, registerValidate_ok u p r.email hu hp he, hbu, hb, hfree]
    · simp [createUser, registerValidate_ok u p r.email hu hp he, hbu, hb, hfree]

/-- Witness for C7 at a concrete store: with one live row holding a@x.com,
re-registering that email is rejected with 400 and the row kept; after the
delete, registering it again returns 201. -/
theorem c7_witness :
    (let r : Row := ⟨"id-1", JSVal.vStr "alice", "h1", JSVal.vStr "a@x.com", false, "t0"⟩
     register [r] (JSVal.vStr "bob") (JSVal.vStr "password1") r.email
        (fun s => s) (fun _ => "tok") "id-2" "t1"
       = (⟨400, .err "Email já está em uso"⟩, [r])
     ∧ (deleteUser [r] r.id).1 = ⟨204, .empty⟩
     ∧ (register ([r].filter (fun o => o.id != r.id)) (JSVal.vStr "bob")
          (JSVal.vStr "password1") r.email (fun s => s) (fun _ => "tok")
          "id-2" "t1").1.status = 201) := by
  have h := c7_email_uniqueness_scoped_to_live_rows
    [⟨"id-1", JSVal.vStr "alice", "h1", JSVal.vStr "a@x.com", false, "t0"⟩]
    ⟨"id-1", JSVal.vStr "alice", "h1", JSVal.vStr "a@x.com", false, "t0"⟩
    "bob" "password1" (fun s => s) (fun _ => "tok") "id-2" "t1"
  refine ⟨?_, ?_, ?_⟩
  · exact h.1 (by simp) (by decide) (by decide) (by decide) (by decide)
  · exact (h.2 (by simp) (by intro o ho he; simp at ho; simp [ho]) (by decide)
      (by decide) (by decide) (by decide)).1
  · exact (h.2 (by simp) (by intro o ho he; simp at ho; simp [ho]) (by decide)
      (by decide) (by decide) (by decide)).2.2.1

/-- A verifier stub that reports a bad signature for every token, standing in
for jwt.verify with a secret that matches no presented token. -/
def constBadSignature : String → VerifyOutcome := fun _ => .badSignature

/-- C8 counterexample: the header `Basic abc` is not of the form
`Bearer <token>`, yet the gate does not fail with MissingToken (401): it
extracts `abc`, attempts verification, and answers 403 from the verifier's
bad-signature outcome. -/
theorem c8_counterexample :
    authenticateToken [] (some "Basic abc") constBadSignature
      = .reject 403 "Token inválido"
    ∧ authenticateToken [] (some "Basic abc") constBadSignature
      ≠ .reject 401 "Token não fornecido" := by
  constructor
  · rfl
  · decide

/-- C8 amended: the gate answers MissingToken (401) exactly when the
Authorization header is absent or lacks a non-empty second space-separated
field; the scheme word is never inspected, so a header such as `Basic abc`
has `abc` passed on to token verification instead. -/
theorem c8_missing_token_iff_no_second_field (st : List Row) (h : Option String)
    (verify : String → VerifyOutcome) :
    (authenticateToken st h verify = .reject 401 "Token não fornecido"
      ↔ extractBearer h = none)
    ∧ extractBearer none = none
    ∧ extractBearer (some "Bearer") = none
    ∧ extractBearer (some "Bearer ") = none
    ∧ extractBearer (some "Basic abc") = some "abc" := by
  refine ⟨?_, rfl, by decide, by decide, by decide⟩
  constructor
  · intro he
    cases hx : extractBearer h with
    | none => rfl
    | some tok =>
      exfalso
      cases hv : verify tok with
      | ok uid =>
        cases hf : st.find? (fun r => r.id == uid) with
        | none => simp [authenticateToken, hx, hv, hf] at he
        | some r => simp [authenticateToken, hx, hv, hf] at he
      | badSignature => simp [authenticateToken, hx, hv] at he
      | expired => simp [authenticateToken, hx, hv] at he
      | otherError => simp [authenticateToken, hx, hv] at he
  · intro hn
    simp [authenticateToken, hn]

/-- C9: the register INSERT names an is_admin column, but the CREATE TABLE
of initializeDatabase declares only id, username, password_hash, email
(unique) and created_at — is_admin is missing from the persisted schema,
while the admin-create INSERT stays within the declared columns.  The
handlers and the repository's own tests treat is_admin as a real column, so
on a fresh database the register INSERT cannot succeed as written. -/
theorem c9_is_admin_column_missing_from_schema :
    "is_admin" ∈ registerInsertColumns
    ∧ "is_admin" ∉ usersTableColumns
    ∧ "email" ∈ usersUniqueColumns
    ∧ usersTableColumns = ["id", "username", "password_hash", "email", "created_at"]
    ∧ ¬ registerInsertColumns ⊆ usersTableColumns
    ∧ createInsertColumns ⊆ usersTableColumns := by
  refine ⟨by decide, by decide, by decide, rfl, ?_, by decide⟩
  intro hsub
  have hmem : "is_admin" ∈ usersTableColumns := hsub (by decide)
  exact absurd hmem (by decide)

/-- C10: a register request whose password is the JSON number 1234 passes
validation — `(1234).length` is undefined and `undefined < 8` is false — so
control reaches the hashing step (where bcrypt throws, the catch-all 500)
instead of the 400 weak-password error; for string passwords shorter than 8
the guard does reject. -/
theorem c10_nonstring_password_skips_length_check :
    registerValidate (JSVal.vStr "alice") (JSVal.vNum 1234) (JSVal.vStr "a@x.com") = none
    ∧ jsLength (JSVal.vNum 1234) = JSVal.vUndefined
    ∧ jsLtNum JSVal.vUndefined 8 = false
    ∧ (register [] (JSVal.vStr "alice") (JSVal.vNum 1234) (JSVal.vStr "a@x.com")
        (fun s => s) (fun _ => "tok") "id1" "t0").1
      = ⟨500, .err "Erro ao registrar usuário"⟩
    ∧ (∀ s : String, s.length < 8 →
        registerValidate (JSVal.vStr "alice") (JSVal.vStr s) (JSVal.vStr "a@x.com")
          ≠ none) := by
  refine ⟨rfl, rfl, rfl, rfl, ?_⟩
  intro s hlen
  obtain ⟨m, hm⟩ := registerValidate_some_of_bad (JSVal.vStr "alice") (JSVal.vStr s)
    (JSVal.vStr "a@x.com") (Or.inr (Or.inr (Or.inr ⟨s, rfl, hlen⟩)))
  simp [hm]
